import Mathlib

/-!
Verification of the `python-coriolisclient` repository: a shallow embedding of
`coriolisclient/cli/replicas.py` (replica CLI formatters and the replica
update patch construction) and `samples/endpoint_samples.py` (endpoint
creation with optional Barbican secret indirection), together with theorems
about the behaviour these modules exhibit.

Conventions of the embedding:
* JSON values are modelled by the inductive `JValue`; Python truthiness of a
  JSON value is `jTruthy`, and truthiness of an optional CLI string argument
  is `strOptTruthy` (argparse yields `None` for an unsupplied flag).
* `json.loads` / `json.dumps` belong to the Python standard library, not to
  this repository, so they are passed as function parameters (`loads`,
  `dumps`) to the embedded operations.
* Python's `sorted(xs, key=k)` is a stable sort; it is embedded as
  `pySorted k xs`, which is `List.mergeSort` with the boolean comparison
  `k a ≤ k b`.
* Remote-service and vault collaborators are modelled by explicit state
  records (`CoriolisState`, `BarbicanState`) threaded through the embedded
  functions; exceptions are modelled with `Except` / `Option`.
-/

/-- A JSON value, as produced by Python's `json` module (numbers restricted
to integers, which suffices for every claim considered here). -/
inductive JValue where
  | jnull : JValue
  | jbool : Bool → JValue
  | jnum : Int → JValue
  | jstr : String → JValue
  | jarr : List JValue → JValue
  | jobj : List (String × JValue) → JValue

/-- Python truthiness of a JSON value: `None`, `False`, `0`, `""`, `[]` and
`\x7b\x7d` are falsy, everything else is truthy. -/
def jTruthy : JValue → Bool
  | JValue.jnull => false
  | JValue.jbool b => b
  | JValue.jnum n => n != 0
  | JValue.jstr s => s != ""
  | JValue.jarr l => !l.isEmpty
  | JValue.jobj l => !l.isEmpty

/-- Python truthiness of an optional string argument (argparse stores `None`
for an unsupplied flag, and the empty string is falsy). -/
def strOptTruthy : Option String → Bool
  | none => false
  | some s => s != ""

/-- Python's `key in obj` / `obj[key]` lookup on a JSON object: the value at
the first occurrence of the key, `none` if the key is absent. -/
def JValue.getKey : JValue → String → Option JValue
  | JValue.jobj l, k => (l.find? (fun p => p.1 == k)).map Prod.snd
  | _, _ => none

/-- Python's stable `sorted(xs, key=k)`: merge sort by the comparison
`k a ≤ k b`. -/
def pySorted {α β : Type} [LinearOrder β] (key : α → β) (l : List α) : List α :=
  l.mergeSort (fun a b => decide (key a ≤ key b))

section PySortedLemmas

variable {α β : Type} [LinearOrder β] (key : α → β)

theorem pySorted_perm (l : List α) : List.Perm (pySorted key l) l :=
  List.mergeSort_perm l _

theorem pySorted_pairwise (l : List α) :
    (pySorted key l).Pairwise (fun a b => key a ≤ key b) := by
  have htrans : ∀ a b c : α, decide (key a ≤ key b) = true →
      decide (key b ≤ key c) = true → decide (key a ≤ key c) = true := by
    intro a b c hab hbc; simp only [decide_eq_true_eq] at *; exact le_trans hab hbc
  have htotal : ∀ a b : α, (decide (key a ≤ key b) || decide (key b ≤ key a)) = true := by
    intro a b; simp only [Bool.or_eq_true, decide_eq_true_eq]; exact le_total _ _
  have h := @List.sorted_mergeSort α _ htrans htotal l
  exact h.imp (by intro a b h; simpa using h)

/-- Stability of `pySorted`, stated through filters: the elements with any
fixed key value appear in the output exactly in their input order. -/
theorem pySorted_filter_key (l : List α) (k : β) :
    (pySorted key l).filter (fun x => key x == k) =
      l.filter (fun x => key x == k) := by
  have htrans : ∀ a b c : α, decide (key a ≤ key b) → decide (key b ≤ key c) →
      decide (key a ≤ key c) := by
    intro a b c hab hbc; simp only [decide_eq_true_eq] at *; exact le_trans hab hbc
  have htotal : ∀ a b : α, decide (key a ≤ key b) || decide (key b ≤ key a) := by
    intro a b; simp only [Bool.or_eq_true, decide_eq_true_eq]; exact le_total _ _
  have hpw : (l.filter (fun x => key x == k)).Pairwise
      (fun a b => decide (key a ≤ key b) = true) := by
    apply List.pairwise_of_forall_mem_list
    intro a ha b hb
    have ha' := (List.mem_filter.mp ha).2
    have hb' := (List.mem_filter.mp hb).2
    simp only [beq_iff_eq] at ha' hb'
    simp [ha', hb']
  have hsub : List.Sublist (l.filter (fun x => key x == k)) (pySorted key l) :=
    List.sublist_mergeSort htrans htotal hpw (List.filter_sublist l)
  have hsub2 : List.Sublist (l.filter (fun x => key x == k))
      ((pySorted key l).filter (fun x => key x == k)) := by
    have h := hsub.filter (fun x => key x == k)
    rwa [List.filter_eq_self.mpr (by intro a ha; exact (List.mem_filter.mp ha).2)] at h
  have hlen : ((pySorted key l).filter (fun x => key x == k)).length =
      (l.filter (fun x => key x == k)).length :=
    ((pySorted_perm key l).filter _).length_eq
  exact (hsub2.eq_of_length hlen.symm).symm

/-- In a list sorted by `key`, the last element has the maximal key. -/
theorem key_le_key_getLast :
    ∀ (l : List α), l.Pairwise (fun a b => key a ≤ key b) →
      ∀ (h : l ≠ []) (x : α), x ∈ l → key x ≤ key (l.getLast h)
  | [], _, h, _, _ => absurd rfl h
  | [a], _, _, x, hx => by
    simp only [List.mem_singleton] at hx
    subst hx
    simp [List.getLast]
  | a :: b :: t, hp, h, x, hx => by
    rw [List.getLast_cons (List.cons_ne_nil b t)]
    rcases List.mem_cons.mp hx with hxa | hxt
    · subst hxa
      exact List.rel_of_pairwise_cons hp (List.getLast_mem (List.cons_ne_nil b t))
    · exact key_le_key_getLast (b :: t) hp.tail (List.cons_ne_nil b t) x hxt

end PySortedLemmas

/-! ## `coriolisclient/cli/replicas.py`: formatters -/

/-- A tasks execution of a replica, as returned by the service
(`id`, `status`, `created_at`); `created_at` timestamps are modelled as
naturals, a faithful abstraction of a totally ordered timestamp. -/
structure Execution where
  id : String
  status : String
  created_at : Nat

/-- A replica entity, restricted to the attributes the list formatter reads
(`id`, `instances`, `executions`, `created_at`). -/
structure Replica where
  id : String
  instances : List String
  executions : List Execution
  created_at : Nat

/-- The rendering `"%(id)s %(status)s" % execution.to_dict()` used by both
`ReplicaFormatter._format_last_execution` and
`ReplicaDetailFormatter._format_execution`. -/
def _format_execution (execution : Execution) : String :=
  execution.id ++ " " ++ execution.status

/-- `ReplicaFormatter._get_sorted_list`:
`sorted(obj_list, key=lambda o: o.created_at)`. -/
def _get_sorted_list (obj_list : List Replica) : List Replica :=
  pySorted Replica.created_at obj_list

/-- `ReplicaFormatter._format_last_execution`: if `obj.executions` is
non-empty, render `sorted(obj.executions, key=lambda e: e.created_at)[-1]`,
else return the empty string. -/
def _format_last_execution (executions : List Execution) : String :=
  if executions.isEmpty then ""
  else
    match (pySorted Execution.created_at executions).getLast? with
    | some execution => _format_execution execution
    | none => ""

/-- `ReplicaFormatter._get_formatted_data`: the row
`(obj.id, "\n".join(obj.instances), _format_last_execution(obj), obj.created_at)`. -/
def _get_formatted_data (obj : Replica) : String × String × String × Nat :=
  (obj.id, String.intercalate "\n" obj.instances,
   _format_last_execution obj.executions, obj.created_at)

/-- Modelled from the spec: `EntityFormatter.list_objects`
(`coriolisclient/cli/formatter.py` is not among the provided sources).
Spec §4.2, list variant: given a sequence of entities, sort by creation
timestamp ascending and emit one row per entity using the type-specific
column set. -/
def list_objects (obj_list : List Replica) : List (String × String × String × Nat) :=
  (_get_sorted_list obj_list).map _get_formatted_data

/-- `ReplicaDetailFormatter._format_instances`:
`os.linesep.join(sorted(obj.instances))` (Linux line separator). -/
def _format_instances (instances : List String) : String :=
  String.intercalate "\n" (pySorted (fun s : String => s) instances)

/-- `ReplicaDetailFormatter._format_executions`: each execution rendered by
`_format_execution`, sorted ascending by `created_at`, joined by
`os.linesep`. -/
def _format_executions (executions : List Execution) : String :=
  String.intercalate "\n"
    ((pySorted Execution.created_at executions).map _format_execution)

/-- C3: for every replica entity, the last-tasks-execution projection returns
the rendering `"<id> <status>"` of an execution of the entity whose creation
timestamp is maximal among the entity's executions, and returns the empty
string when the entity has no executions. -/
theorem format_last_execution_is_max (executions : List Execution) :
    (executions = [] → _format_last_execution executions = "") ∧
    (executions ≠ [] → ∃ e, e ∈ executions ∧
      (∀ x ∈ executions, x.created_at ≤ e.created_at) ∧
      _format_last_execution executions = _format_execution e) := by
  constructor
  · intro h; subst h; rfl
  · intro h
    have hne : pySorted Execution.created_at executions ≠ [] := by
      intro hnil
      have := (pySorted_perm Execution.created_at executions).length_eq
      rw [hnil] at this
      exact h (List.eq_nil_of_length_eq_zero this.symm)
    refine ⟨(pySorted Execution.created_at executions).getLast hne, ?_, ?_, ?_⟩
    · exact (pySorted_perm Execution.created_at executions).mem_iff.mp
        (List.getLast_mem hne)
    · intro x hx
      exact key_le_key_getLast Execution.created_at _
        (pySorted_pairwise Execution.created_at executions) hne x
        ((pySorted_perm Execution.created_at executions).mem_iff.mpr hx)
    · unfold _format_last_execution
      rw [if_neg (by simpa [List.isEmpty_iff] using h),
        List.getLast?_eq_getLast _ hne]

/-- C3 witness: on two concrete executions with timestamps 1 < 2, the
projection picks the later one. -/
theorem format_last_execution_is_max_witness :
    (([⟨"e1", "RUNNING", 1⟩, ⟨"e2", "DONE", 2⟩] : List Execution) ≠ []) ∧
    (∃ e, e ∈ ([⟨"e1", "RUNNING", 1⟩, ⟨"e2", "DONE", 2⟩] : List Execution) ∧
      (∀ x ∈ ([⟨"e1", "RUNNING", 1⟩, ⟨"e2", "DONE", 2⟩] : List Execution),
        x.created_at ≤ e.created_at) ∧
      _format_last_execution [⟨"e1", "RUNNING", 1⟩, ⟨"e2", "DONE", 2⟩] =
        _format_execution e) :=
  ⟨by simp, (format_last_execution_is_max
    [⟨"e1", "RUNNING", 1⟩, ⟨"e2", "DONE", 2⟩]).2 (by simp)⟩

/-- C4: the list formatter emits one row per input entity (count preserved);
the sorted list it renders is a permutation of the input, is non-decreasing
by creation timestamp, and is stable: entities with any fixed timestamp keep
their relative input order. -/
theorem replica_list_formatter_sorted_stable (obj_list : List Replica) :
    (list_objects obj_list).length = obj_list.length ∧
    List.Perm (_get_sorted_list obj_list) obj_list ∧
    (_get_sorted_list obj_list).Pairwise
      (fun a b => a.created_at ≤ b.created_at) ∧
    ∀ t : Nat, (_get_sorted_list obj_list).filter (fun o => o.created_at == t) =
      obj_list.filter (fun o => o.created_at == t) := by
  refine ⟨?_, pySorted_perm _ obj_list, pySorted_pairwise _ obj_list,
    fun t => pySorted_filter_key _ obj_list t⟩
  rw [list_objects, List.length_map]
  exact (pySorted_perm _ obj_list).length_eq

/-- C6: the full execution history projection renders every execution as
`"<id> <status>"` (a permutation of the entity's executions), ordered
ascending by creation timestamp, joined by line breaks. -/
theorem format_executions_sorted_history (executions : List Execution) :
    ∃ l, List.Perm l executions ∧
      l.Pairwise (fun a b => a.created_at ≤ b.created_at) ∧
      _format_executions executions =
        String.intercalate "\n" (l.map _format_execution) :=
  ⟨pySorted Execution.created_at executions,
   pySorted_perm Execution.created_at executions,
   pySorted_pairwise Execution.created_at executions, rfl⟩

/-- C9: the detail formatter renders the instances field as the instance
identifiers sorted alphabetically (a sorted permutation of the input) joined
by line breaks. -/
theorem format_instances_sorted (instances : List String) :
    ∃ l, List.Perm l instances ∧
      l.Pairwise (fun a b : String => a ≤ b) ∧
      _format_instances instances = String.intercalate "\n" l :=
  ⟨pySorted (fun s : String => s) instances,
   pySorted_perm _ instances, pySorted_pairwise _ instances, rfl⟩

/-! ## `samples/endpoint_samples.py`: endpoints and secret indirection -/

/-- A Coriolis endpoint as built by `coriolis.endpoints.create(name,
platform_type, connection_info, description)`. -/
structure Endpoint where
  name : String
  platform_type : String
  connection_info : JValue
  description : String

/-- The Barbican vault collaborator: stored secrets as
`(href, secret name, payload)` triples, in store order. -/
structure BarbicanState where
  secrets : List (String × String × String)

/-- `barbican.secrets.create(...).store()`: appends the secret and returns
its href, produced by the external reference generator `refGen` from the
number of previously stored secrets. -/
def storeSecret (refGen : Nat → String) (bst : BarbicanState)
    (name payload : String) : String × BarbicanState :=
  let ref := refGen bst.secrets.length
  (ref, ⟨bst.secrets ++ [(ref, name, payload)]⟩)

/-- `store_barbican_secret_for_coriolis`: serializes `secret_info` with
`json.dumps` and stores it under the given name, returning the href of the
newly created Barbican secret. -/
def store_barbican_secret_for_coriolis (dumps : JValue → String)
    (refGen : Nat → String) (bst : BarbicanState) (secret_info : JValue)
    (name : String) : String × BarbicanState :=
  let payload := dumps secret_info
  storeSecret refGen bst name payload

/-- `barbican.secrets.get(ref).payload`: the payload of the first stored
secret with the given href, `none` if absent. -/
def fetchSecret (bst : BarbicanState) (ref : String) : Option String :=
  (bst.secrets.find? (fun s => s.1 == ref)).map (fun s => s.2.2)

/-- The Coriolis service collaborator: the server-side provider list and the
endpoints created so far. -/
structure CoriolisState where
  providers : List String
  endpoints : List Endpoint

/-- `create_endpoint`: checks `platform_type` against the server-side
provider list (raising `ValueError` otherwise), optionally stores the
connection info as a Barbican secret and replaces it by a
`secret_ref` stub, then creates the endpoint. The Python `barbican=None`
default is modelled by the `useBarbican` flag next to the explicit
`BarbicanState`. On error both collaborator states are returned unchanged. -/
def create_endpoint (dumps : JValue → String) (refGen : Nat → String)
    (cst : CoriolisState) (bst : BarbicanState)
    (name platform_type : String) (connection_info : JValue)
    (useBarbican : Bool) (description : String) :
    Except String Endpoint × CoriolisState × BarbicanState :=
  if platform_type ∉ cst.providers then
    (Except.error ("platform_type must be one of " ++
      String.intercalate ", " cst.providers), cst, bst)
  else
    let stubbed :=
      if useBarbican then
        let r := store_barbican_secret_for_coriolis dumps refGen bst
          connection_info ("Coriolis Endpoint " ++ name)
        (JValue.jobj [("secret_ref", JValue.jstr r.1)], r.2)
      else (connection_info, bst)
    let endpoint : Endpoint := ⟨name, platform_type, stubbed.1, description⟩
    (Except.ok endpoint, ⟨cst.providers, cst.endpoints ++ [endpoint]⟩, stubbed.2)

/-- `get_endpoint_connection_info`: reads the endpoint's connection info; if
it has no `secret_ref` key it is returned as-is, otherwise the secret behind
the reference is fetched from Barbican and JSON-decoded (`none` models a
failing Barbican lookup or a non-string reference). -/
def get_endpoint_connection_info (loads : String → JValue)
    (bst : BarbicanState) (endpoint : Endpoint) : Option JValue :=
  let endpoint_conn_info := endpoint.connection_info
  match endpoint_conn_info.getKey "secret_ref" with
  | none => some endpoint_conn_info
  | some (JValue.jstr ref) => (fetchSecret bst ref).map loads
  | some _ => none

/-- `validate_endpoint`: returns the `(is_valid, error_msg)` pair produced by
`coriolis.endpoints.validate_connection` (here an input), raising when
`raise_on_error` is set and the result is invalid. -/
def validate_endpoint (validation_result : Bool × String)
    (raise_on_error : Bool) : Except String (Bool × String) :=
  if raise_on_error && !validation_result.1 then
    Except.error ("Endpoint validation failed: " ++ validation_result.2)
  else
    Except.ok validation_result

/-- C2: when the platform type is installed, `create_endpoint` with a vault
handle stores the JSON-serialized payload in the vault and the created
endpoint's connection info is exactly the `secret_ref` stub (so the raw
payload never reaches the create call); without a vault handle the payload is
passed through unchanged. -/
theorem create_endpoint_secret_indirection (dumps : JValue → String)
    (refGen : Nat → String) (cst : CoriolisState) (bst : BarbicanState)
    (name platform_type : String) (connection_info : JValue)
    (description : String) (h : platform_type ∈ cst.providers) :
    (create_endpoint dumps refGen cst bst name platform_type connection_info
        true description =
      (Except.ok ⟨name, platform_type,
          JValue.jobj [("secret_ref",
            JValue.jstr (refGen bst.secrets.length))], description⟩,
       ⟨cst.providers, cst.endpoints ++ [⟨name, platform_type,
          JValue.jobj [("secret_ref",
            JValue.jstr (refGen bst.secrets.length))], description⟩]⟩,
       ⟨bst.secrets ++ [(refGen bst.secrets.length,
          "Coriolis Endpoint " ++ name, dumps connection_info)]⟩)) ∧
    (create_endpoint dumps refGen cst bst name platform_type connection_info
        false description =
      (Except.ok ⟨name, platform_type, connection_info, description⟩,
       ⟨cst.providers, cst.endpoints ++
          [⟨name, platform_type, connection_info, description⟩]⟩, bst)) := by
  constructor <;>
    simp [create_endpoint, h, store_barbican_secret_for_coriolis, storeSecret]

/-- C2 witness: a concrete creation with and without the vault handle. -/
theorem create_endpoint_secret_indirection_witness :
    ("oci" ∈ (["oci", "openstack"] : List String)) ∧
    ((create_endpoint (fun _ => "SERIALIZED") (fun n => "href-" ++ toString n)
        ⟨["oci", "openstack"], []⟩ ⟨[]⟩ "EP" "oci"
        (JValue.jobj [("user", JValue.jstr "admin")]) true "" =
      (Except.ok ⟨"EP", "oci",
          JValue.jobj [("secret_ref", JValue.jstr ("href-" ++ toString 0))], ""⟩,
       ⟨["oci", "openstack"], [⟨"EP", "oci",
          JValue.jobj [("secret_ref", JValue.jstr ("href-" ++ toString 0))], ""⟩]⟩,
       ⟨[("href-" ++ toString 0, "Coriolis Endpoint " ++ "EP", "SERIALIZED")]⟩)) ∧
     (create_endpoint (fun _ => "SERIALIZED") (fun n => "href-" ++ toString n)
        ⟨["oci", "openstack"], []⟩ ⟨[]⟩ "EP" "oci"
        (JValue.jobj [("user", JValue.jstr "admin")]) false "" =
      (Except.ok ⟨"EP", "oci",
          JValue.jobj [("user", JValue.jstr "admin")], ""⟩,
       ⟨["oci", "openstack"], [⟨"EP", "oci",
          JValue.jobj [("user", JValue.jstr "admin")], ""⟩]⟩, ⟨[]⟩))) :=
  ⟨by simp,
   create_endpoint_secret_indirection (fun _ => "SERIALIZED")
     (fun n => "href-" ++ toString n) ⟨["oci", "openstack"], []⟩ ⟨[]⟩
     "EP" "oci" (JValue.jobj [("user", JValue.jstr "admin")]) "" (by simp)⟩

/-- C7: `get_endpoint_connection_info` returns the endpoint's connection
info unchanged when it has no `secret_ref` key, and otherwise returns the
JSON-decoded payload fetched from the vault under that reference. -/
theorem get_endpoint_connection_info_spec (loads : String → JValue)
    (bst : BarbicanState) (name platform_type description : String)
    (kvs : List (String × JValue)) :
    ((JValue.jobj kvs).getKey "secret_ref" = none →
      get_endpoint_connection_info loads bst
        ⟨name, platform_type, JValue.jobj kvs, description⟩ =
        some (JValue.jobj kvs)) ∧
    (∀ ref payload, (JValue.jobj kvs).getKey "secret_ref" =
        some (JValue.jstr ref) →
      fetchSecret bst ref = some payload →
      get_endpoint_connection_info loads bst
        ⟨name, platform_type, JValue.jobj kvs, description⟩ =
        some (loads payload)) := by
  constructor
  · intro h
    simp [get_endpoint_connection_info, h]
  · intro ref payload h hf
    simp [get_endpoint_connection_info, h, hf]

/-- C7 witness: a vault-free connection info is returned as-is; a
`secret_ref` connection info is resolved through the vault and decoded. -/
theorem get_endpoint_connection_info_spec_witness :
    (get_endpoint_connection_info (fun _ => JValue.jnull) ⟨[]⟩
        ⟨"EP", "oci", JValue.jobj [("user", JValue.jstr "admin")], ""⟩ =
      some (JValue.jobj [("user", JValue.jstr "admin")])) ∧
    (get_endpoint_connection_info (fun s => JValue.jstr s)
        ⟨[("r1", "label", "PAYLOAD")]⟩
        ⟨"EP", "oci", JValue.jobj [("secret_ref", JValue.jstr "r1")], ""⟩ =
      some (JValue.jstr "PAYLOAD")) :=
  ⟨(get_endpoint_connection_info_spec (fun _ => JValue.jnull) ⟨[]⟩
      "EP" "oci" "" [("user", JValue.jstr "admin")]).1 rfl,
   (get_endpoint_connection_info_spec (fun s => JValue.jstr s)
      ⟨[("r1", "label", "PAYLOAD")]⟩
      "EP" "oci" "" [("secret_ref", JValue.jstr "r1")]).2 "r1" "PAYLOAD" rfl rfl⟩

/-- C5: creating an endpoint through the vault path and then retrieving its
connection info yields the original payload, assuming the JSON round-trip
(`loads (dumps payload) = payload`, i.e. the payload is JSON-serializable)
and that the vault hands back what was stored (the generated href is fresh,
so the lookup finds the stored secret). -/
theorem vault_roundtrip (dumps : JValue → String) (loads : String → JValue)
    (refGen : Nat → String) (cst : CoriolisState) (bst : BarbicanState)
    (name platform_type : String) (payload : JValue) (description : String)
    (hprov : platform_type ∈ cst.providers)
    (hjson : loads (dumps payload) = payload)
    (hfresh : ∀ s ∈ bst.secrets, s.1 ≠ refGen bst.secrets.length) :
    ∀ ep cst₂ bst₂,
      create_endpoint dumps refGen cst bst name platform_type payload
        true description = (Except.ok ep, cst₂, bst₂) →
      get_endpoint_connection_info loads bst₂ ep = some payload := by
  intro ep cst₂ bst₂ hcreate
  simp only [create_endpoint, store_barbican_secret_for_coriolis, storeSecret,
    if_neg (by simp [hprov] : ¬ platform_type ∉ cst.providers),
    if_pos rfl, Prod.mk.injEq, Except.ok.injEq] at hcreate
  obtain ⟨hep, -, hbst⟩ := hcreate
  subst hep
  subst hbst
  have hnone : List.find? (fun s => s.1 == refGen bst.secrets.length)
      bst.secrets = none := by
    rw [List.find?_eq_none]
    intro x hx
    simpa using hfresh x hx
  simp [get_endpoint_connection_info, JValue.getKey, fetchSecret,
    List.find?_append, hnone, hjson]

/-- C5 witness: a concrete round-trip through the vault path. -/
theorem vault_roundtrip_witness :
    get_endpoint_connection_info
      (fun _ => JValue.jobj [("user", JValue.jstr "admin")])
      ⟨[("r0", "Coriolis Endpoint EP", "P")]⟩
      ⟨"EP", "oci", JValue.jobj [("secret_ref", JValue.jstr "r0")], "d"⟩ =
      some (JValue.jobj [("user", JValue.jstr "admin")]) :=
  vault_roundtrip (fun _ => "P")
    (fun _ => JValue.jobj [("user", JValue.jstr "admin")]) (fun _ => "r0")
    ⟨["oci"], []⟩ ⟨[]⟩ "EP" "oci"
    (JValue.jobj [("user", JValue.jstr "admin")]) "d"
    (by simp) rfl (by simp) _ _ _ rfl

/-- C10: when the platform type is not among the server-listed providers,
`create_endpoint` fails with the `ValueError` message and leaves both the
vault and the endpoint list untouched (the provider check precedes both side
effects), regardless of whether a vault handle was supplied. -/
theorem create_endpoint_unknown_provider (dumps : JValue → String)
    (refGen : Nat → String) (cst : CoriolisState) (bst : BarbicanState)
    (name platform_type : String) (connection_info : JValue)
    (useBarbican : Bool) (description : String)
    (h : platform_type ∉ cst.providers) :
    create_endpoint dumps refGen cst bst name platform_type connection_info
      useBarbican description =
      (Except.error ("platform_type must be one of " ++
        String.intercalate ", " cst.providers), cst, bst) := by
  simp [create_endpoint, h]

/-- C10 witness: creating with an uninstalled platform type fails and stores
nothing. -/
theorem create_endpoint_unknown_provider_witness :
    ("azure" ∉ (["oci", "openstack"] : List String)) ∧
    create_endpoint (fun _ => "SERIALIZED") (fun n => "href-" ++ toString n)
      ⟨["oci", "openstack"], []⟩ ⟨[]⟩ "EP" "azure"
      (JValue.jobj [("user", JValue.jstr "admin")]) true "" =
      (Except.error ("platform_type must be one of " ++
        String.intercalate ", " ["oci", "openstack"]),
       ⟨["oci", "openstack"], []⟩, ⟨[]⟩) :=
  ⟨by simp,
   create_endpoint_unknown_provider (fun _ => "SERIALIZED")
     (fun n => "href-" ++ toString n) ⟨["oci", "openstack"], []⟩ ⟨[]⟩
     "EP" "azure" (JValue.jobj [("user", JValue.jstr "admin")]) true ""
     (by simp)⟩

/-- C8: `validate_endpoint` returns the pair produced by
`validate_connection`; with `raise_on_error` set it raises an error carrying
the message exactly when the result is invalid, and without it it always
returns the pair. -/
theorem validate_endpoint_spec (is_valid : Bool) (error_msg : String) :
    (validate_endpoint (is_valid, error_msg) true =
      if is_valid then Except.ok (is_valid, error_msg)
      else Except.error ("Endpoint validation failed: " ++ error_msg)) ∧
    (validate_endpoint (is_valid, error_msg) false =
      Except.ok (is_valid, error_msg)) ∧
    (validate_endpoint (is_valid, error_msg) true =
        Except.error ("Endpoint validation failed: " ++ error_msg) ↔
      is_valid = false) := by
  cases is_valid <;> simp [validate_endpoint]

/-! ## `coriolisclient/cli/replicas.py`: `UpdateReplica.take_action` -/

/-- The storage-mapping CLI flags consumed by
`cli_utils.get_storage_mappings_dict_from_args` (an optional default backend
and repeated backend/disk mapping pairs). -/
structure StorageArgs where
  default_storage : Option String
  backend_mappings : List (String × String)
  disk_mappings : List (String × String)

/-- Modelled from the spec: `cli_utils.get_storage_mappings_dict_from_args`
(`coriolisclient/cli/utils.py` is not among the provided sources).
Spec §4.1: a StorageMappings object with optional keys `default`,
`backend_mappings` (sequence of source/destination pairs) and
`disk_mappings` (sequence of disk_id/destination pairs), each key present
exactly when the caller supplied the corresponding flags. -/
def get_storage_mappings_dict_from_args (a : StorageArgs) : List (String × JValue) :=
  (match a.default_storage with
   | some d => [("default", JValue.jstr d)]
   | none => []) ++
  (if a.backend_mappings.isEmpty then []
   else [("backend_mappings", JValue.jarr (a.backend_mappings.map (fun p =>
     JValue.jobj [("source", JValue.jstr p.1),
                  ("destination", JValue.jstr p.2)])))]) ++
  (if a.disk_mappings.isEmpty then []
   else [("disk_mappings", JValue.jarr (a.disk_mappings.map (fun p =>
     JValue.jobj [("disk_id", JValue.jstr p.1),
                  ("destination", JValue.jstr p.2)])))])

/-- The CLI arguments of `coriolis replica update` read by
`UpdateReplica.take_action` (argparse stores `none` for an unsupplied flag;
the replica id and `--force` do not influence the patch payload). -/
structure UpdateArgs where
  destination_environment : Option String
  source_environment : Option String
  network_map : Option String
  notes : Option String
  storage : StorageArgs

/-- The decoding step `x = None; if args.x: x = json.loads(args.x)` applied
by `UpdateReplica.take_action` to each JSON-valued argument. -/
def decodeEnvArg (loads : String → JValue) : Option String → Option JValue
  | some s => if s != "" then some (loads s) else none
  | none => none

/-- Python truthiness of an optional JSON value (`None` is falsy). -/
def jOptTruthy : Option JValue → Bool
  | none => false
  | some v => jTruthy v

/-- One conditional insertion `if x: updated_properties[key] = x` for a
JSON-valued field. -/
def envBlock (key : String) : Option JValue → List (String × JValue)
  | some v => if jTruthy v then [(key, v)] else []
  | none => []

/-- The conditional insertion `if storage_mappings: ...` (a Python dict is
truthy when non-empty). -/
def storageBlock (storage_mappings : List (String × JValue)) :
    List (String × JValue) :=
  if storage_mappings.isEmpty then []
  else [("storage_mappings", JValue.jobj storage_mappings)]

/-- The conditional insertion `if args.notes: updated_properties['notes'] =
args.notes` (no JSON decoding for notes). -/
def notesBlock : Option String → List (String × JValue)
  | some s => if s != "" then [("notes", JValue.jstr s)] else []
  | none => []

/-- `UpdateReplica.take_action`: the `updated_properties` patch payload
passed to `replicas.update`. The Python code inserts each key into a dict
under a truthiness guard, in source order (`destination_environment`,
`source_environment`, `storage_mappings`, `network_map`, `notes`); since the
keys are distinct and dicts preserve insertion order, the dict is the
concatenation of the per-field blocks. -/
def updateReplicaPatch (loads : String → JValue) (args : UpdateArgs) :
    List (String × JValue) :=
  envBlock "destination_environment"
    (decodeEnvArg loads args.destination_environment) ++
  envBlock "source_environment" (decodeEnvArg loads args.source_environment) ++
  storageBlock (get_storage_mappings_dict_from_args args.storage) ++
  envBlock "network_map" (decodeEnvArg loads args.network_map) ++
  notesBlock args.notes

theorem mem_envBlock_fst (k key : String) (v : Option JValue) :
    k ∈ (envBlock key v).map Prod.fst ↔ k = key ∧ jOptTruthy v = true := by
  cases v with
  | none => simp [envBlock, jOptTruthy]
  | some x =>
    by_cases hx : jTruthy x = true
    · simp [envBlock, jOptTruthy, hx]
    · simp [envBlock, jOptTruthy, hx]

theorem mem_storageBlock_fst (k : String) (sm : List (String × JValue)) :
    k ∈ (storageBlock sm).map Prod.fst ↔
      k = "storage_mappings" ∧ sm.isEmpty = false := by
  by_cases hsm : sm.isEmpty = true
  · simp [storageBlock, hsm]
  · simp only [Bool.not_eq_true] at hsm
    simp [storageBlock, hsm]

theorem mem_notesBlock_fst (k : String) (notes : Option String) :
    k ∈ (notesBlock notes).map Prod.fst ↔
      k = "notes" ∧ strOptTruthy notes = true := by
  cases notes with
  | none => simp [notesBlock, strOptTruthy]
  | some s =>
    by_cases hs : s != ""
    · simp [notesBlock, strOptTruthy, hs]
    · simp [notesBlock, strOptTruthy, hs]

/-- C1 counterexample: with `--notes ''` the notes field IS supplied by the
caller (argparse stores the empty string, not `None`), yet
`UpdateReplica.take_action` produces an empty patch payload, because the
insertion is guarded by Python truthiness rather than by presence. So a
field does not appear in the patch if and only if the caller supplied it. -/
theorem updateReplica_supplied_field_dropped :
    (UpdateArgs.notes ⟨none, none, none, some "", ⟨none, [], []⟩⟩).isSome = true ∧
    updateReplicaPatch (fun _ => JValue.jnull)
      ⟨none, none, none, some "", ⟨none, [], []⟩⟩ = [] :=
  ⟨rfl, rfl⟩

/-- C1 (amended): a field appears in the `updated_properties` patch payload
if and only if the caller supplied a value for it that is truthy after
decoding (for the JSON-valued fields: a non-empty argument whose decoded
value is truthy; for `notes`: a non-empty string; for `storage_mappings`: a
non-empty storage-mappings dict), not merely if and only if it was supplied;
in particular an invocation with no fields supplied still produces an empty
patch payload. -/
theorem updateReplicaPatch_keys (loads : String → JValue) (args : UpdateArgs) :
    ("destination_environment" ∈ (updateReplicaPatch loads args).map Prod.fst ↔
      jOptTruthy (decodeEnvArg loads args.destination_environment) = true) ∧
    ("source_environment" ∈ (updateReplicaPatch loads args).map Prod.fst ↔
      jOptTruthy (decodeEnvArg loads args.source_environment) = true) ∧
    ("storage_mappings" ∈ (updateReplicaPatch loads args).map Prod.fst ↔
      (get_storage_mappings_dict_from_args args.storage).isEmpty = false) ∧
    ("network_map" ∈ (updateReplicaPatch loads args).map Prod.fst ↔
      jOptTruthy (decodeEnvArg loads args.network_map) = true) ∧
    ("notes" ∈ (updateReplicaPatch loads args).map Prod.fst ↔
      strOptTruthy args.notes = true) ∧
    (args.destination_environment = none → args.source_environment = none →
      args.network_map = none → args.notes = none →
      args.storage.default_storage = none →
      args.storage.backend_mappings = [] → args.storage.disk_mappings = [] →
      updateReplicaPatch loads args = []) := by
  refine ⟨?_, ?_, ?_, ?_, ?_, ?_⟩
  · simp only [updateReplicaPatch, List.map_append, List.mem_append,
      mem_envBlock_fst, mem_storageBlock_fst, mem_notesBlock_fst]
    simp
  · simp only [updateReplicaPatch, List.map_append, List.mem_append,
      mem_envBlock_fst, mem_storageBlock_fst, mem_notesBlock_fst]
    simp
  · simp only [updateReplicaPatch, List.map_append, List.mem_append,
      mem_envBlock_fst, mem_storageBlock_fst, mem_notesBlock_fst]
    simp
  · simp only [updateReplicaPatch, List.map_append, List.mem_append,
      mem_envBlock_fst, mem_storageBlock_fst, mem_notesBlock_fst]
    simp
  · simp only [updateReplicaPatch, List.map_append, List.mem_append,
      mem_envBlock_fst, mem_storageBlock_fst, mem_notesBlock_fst]
    simp
  · intro h₁ h₂ h₃ h₄ h₅ h₆ h₇
    obtain ⟨de, se, nm, notes, ⟨dft, bm, dm⟩⟩ := args
    simp only at h₁ h₂ h₃ h₄ h₅ h₆ h₇
    subst h₁; subst h₂; subst h₃; subst h₄; subst h₅; subst h₆; subst h₇
    rfl

/-- C1 witness: an invocation with no fields supplied produces an empty
patch payload. -/
theorem updateReplicaPatch_keys_witness :
    updateReplicaPatch (fun _ => JValue.jnull)
      ⟨none, none, none, none, ⟨none, [], []⟩⟩ = [] :=
  (updateReplicaPatch_keys (fun _ => JValue.jnull)
    ⟨none, none, none, none, ⟨none, [], []⟩⟩).2.2.2.2.2 rfl rfl rfl rfl rfl rfl rfl
